import Mathlib

/-!
Verification of the dify-ai-provider streaming normalizer and blocking
reducer, shallowly embedded from the TypeScript sources
(src/completion/model.ts in its two provider-contract versions, the
completion response schemas, and the provider tests).
-/

namespace DifyProvider

/-! ## Data model

Upstream events, decode results, the cross-event accumulator and the
normalized stream parts, as decoded by the stream-event schema and consumed
by the completion model's TransformStream.
-/

/-- The metadata.usage object an upstream record may carry
(prompt_tokens / completion_tokens / total_tokens). -/
structure UsageMeta where
  prompt_tokens : Int
  completion_tokens : Int
  total_tokens : Int
deriving DecidableEq, Repr

/-- The nested data object of an upstream event; the transform only probes
it for a numeric total_tokens and a string text field, so those are the
fields modelled (each optional, mirroring the runtime presence checks). -/
structure EventData where
  total_tokens : Option Int
  text : Option String
deriving DecidableEq, Repr

/-- A schema-validated upstream stream event. The event discriminant is the
string the code switches on; the remaining fields are optional, mirroring
the runtime field-presence probing in the transform. -/
structure DifyStreamEvent where
  event : String
  workflow_run_id : Option String
  task_id : Option String
  data : Option EventData
  metadata_usage : Option UsageMeta
deriving DecidableEq, Repr

/-- Result of validating one SSE payload: a typed event or an opaque
failure, mirroring ParseResult from the provider utilities. -/
inductive ParseResult where
  | success (value : DifyStreamEvent)
  | failure (error : String)
deriving DecidableEq, Repr

/-- The cross-event accumulator captured by the doStream closure:
last-seen workflowRunId and taskId. (The completion model keeps no
text-span flag; msgId is generated once per stream and passed around.) -/
structure Acc where
  workflowRunId : Option String
  taskId : Option String
deriving DecidableEq, Repr

/-- Initial accumulator at stream open: both ids undefined. -/
def accInit : Acc := ⟨none, none⟩

/-- Usage triple of the v2 provider contract. -/
structure UsageV2 where
  inputTokens : Int
  outputTokens : Int
  totalTokens : Int
deriving DecidableEq, Repr

/-- providerMetadata.difyWorkflowData attached to a finish part. -/
structure DifyWorkflowMeta where
  workflowRunId : Option String
  taskId : Option String
deriving DecidableEq, Repr

/-- Normalized stream parts emitted by the v2 completion transform. -/
inductive StreamPart where
  | error (e : String)
  | responseMetadata (id : String)
  | textStart (id : String)
  | textDelta (id : String) (delta : String)
  | textEnd (id : String)
  | finish (finishReason : String) (usage : UsageV2)
      (providerMetadata : DifyWorkflowMeta)
deriving DecidableEq, Repr

/-! ## The v2 completion stream transform

Embedded from the transform callback of DifyCompletionLanguageModel.doStream
(the LanguageModelV2 implementation): decode failures enqueue an error part;
successful events first update the accumulator ids under JS truthiness, then
dispatch on the event string.
-/

/-- JS truthiness of an optional string: present and non-empty. -/
def truthyStr : Option String → Bool
  | some s => s ≠ ""
  | none => false

/-- Accumulator update performed for every successful chunk before the
switch: each id is overwritten only when the event carries a truthy value. -/
def updateIds (s : Acc) (e : DifyStreamEvent) : Acc :=
  { workflowRunId :=
      if truthyStr e.workflow_run_id then e.workflow_run_id else s.workflowRunId,
    taskId := if truthyStr e.task_id then e.task_id else s.taskId }

/-- totalTokens computed in the workflow_finished branch: the nested
data.total_tokens when present and numeric, else 0. -/
def eventTotalTokens (e : DifyStreamEvent) : Int :=
  match e.data with
  | some d => d.total_tokens.getD 0
  | none => 0

/-- Usage triple of the finish part emitted for workflow_finished:
inputTokens 0, outputTokens and totalTokens both the event total. -/
def streamFinishUsage (e : DifyStreamEvent) : UsageV2 :=
  ⟨0, eventTotalTokens e, eventTotalTokens e⟩

/-- Parts of the text_chunk branch: a text-delta when the nested data
carries a string text field, else nothing. -/
def textChunkParts (msgId : String) (e : DifyStreamEvent) : List StreamPart :=
  match e.data with
  | some d =>
    match d.text with
    | some t => [.textDelta msgId t]
    | none => []
  | none => []

/-- Parts of the workflow_started branch: response-metadata with the
event's own workflow_run_id, then text-start, whenever that id is a
present string (no span flag is consulted). -/
def workflowStartedParts (msgId : String) (e : DifyStreamEvent) : List StreamPart :=
  match e.workflow_run_id with
  | some rid => [.responseMetadata rid, .textStart msgId]
  | none => []

/-- Parts of the workflow_finished branch: text-end then the finish part,
with metadata read from the already-updated accumulator. -/
def workflowFinishedParts (msgId : String) (s : Acc) (e : DifyStreamEvent) :
    List StreamPart :=
  [.textEnd msgId,
   .finish "stop" (streamFinishUsage e) ⟨s.workflowRunId, s.taskId⟩]

/-- One invocation of the transform callback: maps the accumulator and one
decode result to the emitted parts and the new accumulator. -/
def transformEvent (msgId : String) (s : Acc) (c : ParseResult) :
    List StreamPart × Acc :=
  match c with
  | .failure err => ([.error err], s)
  | .success e =>
    let s' := updateIds s e
    if e.event = "workflow_finished" then (workflowFinishedParts msgId s' e, s')
    else if e.event = "text_chunk" then (textChunkParts msgId e, s')
    else if e.event = "workflow_started" then (workflowStartedParts msgId e, s')
    else ([], s')

/-- The whole stream: the transform applied to each chunk in arrival order,
threading the accumulator, concatenating the emitted parts. -/
def runTransform (msgId : String) : Acc → List ParseResult → List StreamPart × Acc
  | s, [] => ([], s)
  | s, c :: rest =>
    let r := transformEvent msgId s c
    let r2 := runTransform msgId r.2 rest
    (r.1 ++ r2.1, r2.2)

/-! ## Part and chunk classifiers used by the counting properties -/

def isFinishPart : StreamPart → Bool
  | .finish _ _ _ => true
  | _ => false

def isTextStartPart : StreamPart → Bool
  | .textStart _ => true
  | _ => false

def isTextEndPart : StreamPart → Bool
  | .textEnd _ => true
  | _ => false

/-- A successfully decoded workflow_finished chunk. -/
def isWFFinished : ParseResult → Bool
  | .success e => e.event == "workflow_finished"
  | .failure _ => false

/-- A successfully decoded workflow_started chunk carrying a present
workflow_run_id (the guard of the workflow_started branch). -/
def isWFStartedWithRunId : ParseResult → Bool
  | .success e => e.event == "workflow_started" && e.workflow_run_id.isSome
  | .failure _ => false

/-- A successfully decoded terminal event in the sense of the spec:
workflow_finished or message_end. -/
def isTerminalChunk : ParseResult → Bool
  | .success e => e.event == "workflow_finished" || e.event == "message_end"
  | .failure _ => false

/-! ## Request construction (getRequestBody, v2)

Embedded from DifyCompletionLanguageModel.getRequestBody and the
constructor's default-response-mode assignment.
-/

/-- One element of a message content array: either a bare string or an
object with a type tag (text objects carry the text payload the query
extraction reads; a file type marks an attachment). -/
inductive ContentPart where
  | str (s : String)
  | obj (type : String) (text : String)
deriving DecidableEq, Repr

/-- A message's content: a plain string or an array of parts. -/
inductive MessageContent where
  | str (s : String)
  | parts (l : List ContentPart)
deriving DecidableEq, Repr

/-- A prompt message as getRequestBody reads it: role plus content. -/
structure Message where
  role : String
  content : MessageContent
deriving DecidableEq, Repr

/-- Modelled from the spec: DifyCompletionSettings (its source file is not
among the available sources; the model code reads exactly the inputs record
and the responseMode field). -/
structure DifySettings where
  inputs : List (String × String)
  responseMode : Option String
deriving DecidableEq, Repr

/-- The constructor's default: when settings.responseMode is falsy (absent
or empty), it is set to streaming. -/
def initSettings (s : DifySettings) : DifySettings :=
  { s with
    responseMode :=
      if truthyStr s.responseMode then s.responseMode else some "streaming" }

/-- The attachment probe of the latest message: an array content containing
an object part whose type is file. -/
def hasAttachments : MessageContent → Bool
  | .str _ => false
  | .parts l =>
    l.any fun p =>
      match p with
      | .str _ => false
      | .obj t _ => t == "file"

/-- Text drawn from one content part during query extraction: bare strings
verbatim, text objects by their text field, anything else the empty
string. -/
def partText : ContentPart → String
  | .str s => s
  | .obj t txt => if t = "text" then txt else ""

/-- Query extraction from the latest message content: a plain string as-is;
an array mapped through partText, falsy (empty) entries filtered out,
joined with single spaces. -/
def extractQuery : MessageContent → String
  | .str s => s
  | .parts l =>
    String.intercalate " " (((l.map partText).filter (fun s => s != "")))

/-- The outgoing request body: the inputs record (query entry first, then
the settings inputs spread over it), the response_mode, and the user id. -/
structure RequestBody where
  inputs : List (String × String)
  response_mode : Option String
  user : String
deriving DecidableEq, Repr

/-- getRequestBody: validates the message list (throwing the three
APICallError messages of the source), extracts the query, resolves the
user id from the user-id header with the fixed placeholder default, and
builds the body with the settings-level response mode. Errors model the
thrown APICallError by its message. -/
def getRequestBody (settings : DifySettings) (userIdHeader : Option String)
    (messages : List Message) : Except String RequestBody :=
  match messages.getLast? with
  | none => .error "No messages provided"
  | some latest =>
    if latest.role ≠ "user" then
      .error "The last message must be a user message"
    else if hasAttachments latest.content then
      .error "Dify provider does not currently support file attachments"
    else
      .ok
        { inputs := ("query", extractQuery latest.content) :: settings.inputs,
          response_mode := settings.responseMode,
          user := userIdHeader.getD "you_should_pass_user-id" }

/-- The body doStream actually posts: the request body with response_mode
overridden to streaming by the object spread. -/
def doStreamBody (b : RequestBody) : RequestBody :=
  { b with response_mode := some "streaming" }

/-- The v1 attachment probe: an array content containing a non-string part
whose type is image (the v1 model checks for image, not file,
attachments). -/
def hasAttachmentsV1 : MessageContent → Bool
  | .str _ => false
  | .parts l =>
    l.any fun p =>
      match p with
      | .str _ => false
      | .obj t _ => t == "image"

/-- The v1 getRequestBody: same validation chain as v2, but the attachment
branch probes for image parts and throws the image-attachments message. -/
def getRequestBodyV1 (settings : DifySettings) (userIdHeader : Option String)
    (messages : List Message) : Except String RequestBody :=
  match messages.getLast? with
  | none => .error "No messages provided"
  | some latest =>
    if latest.role ≠ "user" then
      .error "The last message must be a user message"
    else if hasAttachmentsV1 latest.content then
      .error "Dify provider does not currently support image attachments"
    else
      .ok
        { inputs := ("query", extractQuery latest.content) :: settings.inputs,
          response_mode := settings.responseMode,
          user := userIdHeader.getD "you_should_pass_user-id" }

/-! ## Blocking-mode reduction (doGenerate)

Embedded from the two doGenerate implementations and their completion
response schemas: the v1 schema has no metadata field (zod strips unknown
keys), the v2 schema requires metadata.usage.
-/

/-- A decoded v1 workflow completion response (schema without metadata):
task_id, optional workflow_run_id, and the optional outputs.result text. -/
structure V1CompletionResponse where
  task_id : String
  workflow_run_id : Option String
  outputs_result : Option String
deriving DecidableEq, Repr

/-- A decoded v2 workflow completion response (schema with required
metadata.usage). -/
structure V2CompletionResponse where
  task_id : String
  workflow_run_id : Option String
  outputs_result : Option String
  metadata_usage : UsageMeta
deriving DecidableEq, Repr

/-- Usage pair of the v1 provider contract. -/
structure UsageV1 where
  promptTokens : Int
  completionTokens : Int
deriving DecidableEq, Repr

/-- The v1 doGenerate result fields the claims are about. -/
structure GenResultV1 where
  text : String
  finishReason : String
  usage : UsageV1
  workflowRunId : Option String
  taskId : Option String
deriving DecidableEq, Repr

/-- The v2 doGenerate result fields the claims are about: the content list
holds the text entries pushed. -/
structure GenResultV2 where
  content : List String
  finishReason : String
  usage : UsageV2
  workflowRunId : Option String
  taskId : Option String
deriving DecidableEq, Repr

/-- The v1 blocking reduction: text from outputs.result defaulted to empty,
finish reason stop, usage hard-coded to zero, metadata from the response
ids. -/
def doGenerateV1 (r : V1CompletionResponse) : GenResultV1 :=
  { text := r.outputs_result.getD "",
    finishReason := "stop",
    usage := ⟨0, 0⟩,
    workflowRunId := r.workflow_run_id,
    taskId := some r.task_id }

/-- The v2 blocking reduction: a text content entry only when the
outputs.result text is truthy, finish reason stop, usage copied field by
field from metadata.usage, metadata from the response ids. -/
def doGenerateV2 (r : V2CompletionResponse) : GenResultV2 :=
  let textContent := r.outputs_result.getD ""
  { content := if textContent = "" then [] else [textContent],
    finishReason := "stop",
    usage :=
      ⟨r.metadata_usage.prompt_tokens,
       r.metadata_usage.completion_tokens,
       r.metadata_usage.total_tokens⟩,
    workflowRunId := r.workflow_run_id,
    taskId := some r.task_id }

/-! ## Chat-model message_end usage rule -/

/-- Modelled from the spec: the chat model's message_end usage reconciler
(dify-chat-language-model.ts is not among the available sources, only its
test file is). Per the spec's literal fixtures and the test expectations,
the finish part's outputTokens come from the nested numeric
data.total_tokens when present, else 0 — the metadata.usage object is not
consulted for outputTokens (the test fixture with usage totals 10/25/35 and
no data field expects 0). -/
def messageEndOutputTokens (e : DifyStreamEvent) : Int :=
  match e.data with
  | some d => d.total_tokens.getD 0
  | none => 0

/-! ## Counting lemmas for the transform -/

theorem countP_finish_transformEvent (m : String) (s : Acc) (c : ParseResult) :
    ((transformEvent m s c).1).countP isFinishPart =
      if isWFFinished c then 1 else 0 := by
  cases c with
  | failure err => simp [transformEvent, isWFFinished, isFinishPart]
  | success e =>
    by_cases h1 : e.event = "workflow_finished"
    · simp [transformEvent, h1, isWFFinished, workflowFinishedParts, isFinishPart]
    · by_cases h2 : e.event = "text_chunk"
      · have hz : (textChunkParts m e).countP isFinishPart = 0 := by
          unfold textChunkParts
          cases hd : e.data with
          | none => simp
          | some d => cases ht : d.text <;> simp [ht, isFinishPart]
        simp [transformEvent, h1, h2, isWFFinished, hz]
      · by_cases h3 : e.event = "workflow_started"
        · have hz : (workflowStartedParts m e).countP isFinishPart = 0 := by
            unfold workflowStartedParts
            rcases e.workflow_run_id with _ | rid <;> simp [isFinishPart]
          simp [transformEvent, h1, h2, h3, isWFFinished, hz]
        · simp [transformEvent, h1, h2, h3, isWFFinished]

theorem countP_textStart_transformEvent (m : String) (s : Acc) (c : ParseResult) :
    ((transformEvent m s c).1).countP isTextStartPart =
      if isWFStartedWithRunId c then 1 else 0 := by
  cases c with
  | failure err => simp [transformEvent, isWFStartedWithRunId, isTextStartPart]
  | success e =>
    by_cases h1 : e.event = "workflow_finished"
    · simp [transformEvent, h1, isWFStartedWithRunId, workflowFinishedParts,
        isTextStartPart]
    · by_cases h2 : e.event = "text_chunk"
      · have hz : (textChunkParts m e).countP isTextStartPart = 0 := by
          unfold textChunkParts
          cases hd : e.data with
          | none => simp
          | some d => cases ht : d.text <;> simp [ht, isTextStartPart]
        simp [transformEvent, h1, h2, isWFStartedWithRunId, hz]
      · by_cases h3 : e.event = "workflow_started"
        · unfold transformEvent workflowStartedParts
          rcases hr : e.workflow_run_id with _ | rid <;>
            simp [h1, h2, h3, isWFStartedWithRunId, isTextStartPart, hr]
        · simp [transformEvent, h1, h2, h3, isWFStartedWithRunId]

theorem countP_textEnd_transformEvent (m : String) (s : Acc) (c : ParseResult) :
    ((transformEvent m s c).1).countP isTextEndPart =
      if isWFFinished c then 1 else 0 := by
  cases c with
  | failure err => simp [transformEvent, isWFFinished, isTextEndPart]
  | success e =>
    by_cases h1 : e.event = "workflow_finished"
    · simp [transformEvent, h1, isWFFinished, workflowFinishedParts, isTextEndPart]
    · by_cases h2 : e.event = "text_chunk"
      · have hz : (textChunkParts m e).countP isTextEndPart = 0 := by
          unfold textChunkParts
          cases hd : e.data with
          | none => simp
          | some d => cases ht : d.text <;> simp [ht, isTextEndPart]
        simp [transformEvent, h1, h2, isWFFinished, hz]
      · by_cases h3 : e.event = "workflow_started"
        · have hz : (workflowStartedParts m e).countP isTextEndPart = 0 := by
            unfold workflowStartedParts
            rcases e.workflow_run_id with _ | rid <;> simp [isTextEndPart]
          simp [transformEvent, h1, h2, h3, isWFFinished, hz]
        · simp [transformEvent, h1, h2, h3, isWFFinished]

/-! ## Fixtures -/

/-- A successfully decoded message_end event (the terminal event ignored by
the completion transform). -/
def c2MsgEndEvent : DifyStreamEvent :=
  ⟨"message_end", none, none, none, some ⟨10, 25, 35⟩⟩

/-- A workflow_started event carrying a run id. -/
def c7StartedEvent : DifyStreamEvent :=
  ⟨"workflow_started", some "wfr1", none, some ⟨none, none⟩, none⟩

/-- A workflow_finished event carrying ids and a total. -/
def c7FinishedEvent : DifyStreamEvent :=
  ⟨"workflow_finished", some "wfr1", some "task1", some ⟨some 42, none⟩, none⟩

/-- A workflow_finished event used for the C6 witness. -/
def c6Event : DifyStreamEvent :=
  ⟨"workflow_finished", some "wfr1", some "task1", some ⟨some 42, none⟩, none⟩

/-! ## Claims -/

/-- C1 counterexample: a decode failure does not produce an empty output
sequence — the transform enqueues exactly one error part for it (the
accumulator is indeed unchanged). -/
theorem c1_counterexample :
    (transformEvent "m" accInit (ParseResult.failure "bad")).1 =
      [StreamPart.error "bad"] ∧
    (transformEvent "m" accInit (ParseResult.failure "bad")).1 ≠
      ([] : List StreamPart) ∧
    (transformEvent "m" accInit (ParseResult.failure "bad")).2 = accInit := by
  refine ⟨rfl, ?_, rfl⟩
  decide

/-- C1 (amended): for every decode failure fed to the stream transform, the
output for that chunk is exactly one error part carrying the chunk's error,
and the accumulator (workflowRunId, taskId) is unchanged. -/
theorem c1_failure_emits_single_error_part (msgId : String) (s : Acc)
    (err : String) :
    transformEvent msgId s (.failure err) = ([.error err], s) := rfl

/-- C2 counterexample: a stream consisting of one successfully decoded
message_end event contains one terminal event but the completion transform
emits zero finish parts for it. -/
theorem c2_counterexample :
    (([ParseResult.success c2MsgEndEvent]).countP isTerminalChunk = 1) ∧
    ((runTransform "m" accInit [ParseResult.success c2MsgEndEvent]).1).countP
      isFinishPart = 0 := by
  constructor <;> decide

/-- C2 (amended): for every upstream chunk sequence, the number of finish
parts emitted by the completion transform equals the number of successfully
decoded workflow_finished events — message_end events are ignored by this
normalizer and contribute no finish part. -/
theorem c2_finish_count_eq_workflow_finished_count (msgId : String) (s : Acc)
    (cs : List ParseResult) :
    ((runTransform msgId s cs).1).countP isFinishPart =
      cs.countP isWFFinished := by
  induction cs generalizing s with
  | nil => simp [runTransform]
  | cons c rest ih =>
    simp only [runTransform, List.countP_append, List.countP_cons,
      countP_finish_transformEvent, ih]
    exact Nat.add_comm _ _

/-- C6: every workflow_finished event makes the transform emit text-end
followed by a finish part with finishReason stop, usage
(inputTokens 0, outputTokens T, totalTokens T) where T is the nested
data.total_tokens defaulted to 0, and providerMetadata carrying the
accumulator ids as updated by this same event. -/
theorem c6_workflow_finished_emission (msgId : String) (s : Acc)
    (e : DifyStreamEvent) (h : e.event = "workflow_finished") :
    transformEvent msgId s (.success e) =
      ([.textEnd msgId,
        .finish "stop" ⟨0, eventTotalTokens e, eventTotalTokens e⟩
          ⟨(updateIds s e).workflowRunId, (updateIds s e).taskId⟩],
       updateIds s e) := by
  simp [transformEvent, h, workflowFinishedParts, streamFinishUsage]

/-- C6 witness: the theorem applied to a concrete workflow_finished event
with total_tokens 42 and ids set by the event itself. -/
theorem c6_witness :
    transformEvent "m" accInit (.success c6Event) =
      ([.textEnd "m",
        .finish "stop" ⟨0, eventTotalTokens c6Event, eventTotalTokens c6Event⟩
          ⟨(updateIds accInit c6Event).workflowRunId,
           (updateIds accInit c6Event).taskId⟩],
       updateIds accInit c6Event) :=
  c6_workflow_finished_emission "m" accInit c6Event rfl

/-- C7 counterexample: two workflow_started events yield two text-start
parts (more than the claimed at-most-one pair; no span flag exists), and a
lone workflow_finished emits a text-end even though no span was ever
opened. -/
theorem c7_counterexample :
    ((runTransform "m" accInit
        [ParseResult.success c7StartedEvent,
         ParseResult.success c7StartedEvent]).1).countP isTextStartPart = 2 ∧
    ¬(2 ≤ 1) ∧
    ((runTransform "m" accInit
        [ParseResult.success c7FinishedEvent]).1).countP isTextEndPart = 1 := by
  refine ⟨by decide, by decide, by decide⟩

/-- C7 (amended): the v2 completion transform keeps no span flag: the number
of text-start parts equals the number of successfully decoded
workflow_started events carrying a workflow_run_id (each of which also emits
response-metadata first), and the number of text-end parts equals the number
of successfully decoded workflow_finished events — both unconditional, so
several pairs can occur in one stream. -/
theorem c7_text_part_counts (msgId : String) (s : Acc)
    (cs : List ParseResult) :
    ((runTransform msgId s cs).1).countP isTextStartPart =
      cs.countP isWFStartedWithRunId ∧
    ((runTransform msgId s cs).1).countP isTextEndPart =
      cs.countP isWFFinished := by
  induction cs generalizing s with
  | nil => simp [runTransform]
  | cons c rest ih =>
    constructor
    · simp only [runTransform, List.countP_append, List.countP_cons,
        countP_textStart_transformEvent, (ih _).1]
      exact Nat.add_comm _ _
    · simp only [runTransform, List.countP_append, List.countP_cons,
        countP_textEnd_transformEvent, (ih _).2]
      exact Nat.add_comm _ _

/-- The C3 fixture event: message_end carrying data.total_tokens 50 and
metadata.usage totals 10/25/35. -/
def c3Event : DifyStreamEvent :=
  ⟨"message_end", none, none, some ⟨some 50, none⟩, some ⟨10, 25, 35⟩⟩

/-- C3: for every message_end event carrying both a numeric
data.total_tokens and a metadata.usage object, the finish part's
outputTokens equal data.total_tokens — the nested field wins. -/
theorem c3_data_total_tokens_wins (e : DifyStreamEvent) (d : EventData)
    (n : Int) (u : UsageMeta) (hd : e.data = some d)
    (hn : d.total_tokens = some n) (_hu : e.metadata_usage = some u) :
    messageEndOutputTokens e = n := by
  simp [messageEndOutputTokens, hd, hn]

/-- C3 witness: the fixture with data.total_tokens 50 against
metadata.usage total 35 resolves to 50. -/
theorem c3_witness : messageEndOutputTokens c3Event = 50 :=
  c3_data_total_tokens_wins c3Event ⟨some 50, none⟩ 50 ⟨10, 25, 35⟩ rfl rfl rfl

/-- The C4 fixture event: message_end with metadata.usage totals 10/25/35
and no nested data object at all (the literal test fixture). -/
def c4Event : DifyStreamEvent :=
  ⟨"message_end", none, none, none, some ⟨10, 25, 35⟩⟩

/-- C4 counterexample: at the test fixture (metadata.usage present with
completion_tokens 25, no data field) the resolved outputTokens are 0, not
the claimed completion_tokens — metadata.usage is not consulted. -/
theorem c4_counterexample :
    c4Event.metadata_usage = some ⟨10, 25, 35⟩ ∧
    c4Event.data = none ∧
    messageEndOutputTokens c4Event = 0 ∧
    messageEndOutputTokens c4Event ≠ 25 := by
  refine ⟨rfl, rfl, rfl, by decide⟩

/-- C4 (amended): for every message_end event with no nested numeric
data.total_tokens, the resolved outputTokens are 0 even when a
metadata.usage object is present. -/
theorem c4_no_data_total_tokens_yields_zero (e : DifyStreamEvent)
    (u : UsageMeta) (_hu : e.metadata_usage = some u)
    (hd : e.data.bind EventData.total_tokens = none) :
    messageEndOutputTokens e = 0 := by
  cases he : e.data with
  | none => simp [messageEndOutputTokens, he]
  | some d =>
    rw [he] at hd
    have hd2 : d.total_tokens = none := hd
    simp [messageEndOutputTokens, he, hd2]

/-- C4 witness: the amended theorem applied to the literal fixture. -/
theorem c4_witness : messageEndOutputTokens c4Event = 0 :=
  c4_no_data_total_tokens_yields_zero c4Event ⟨10, 25, 35⟩ rfl rfl

/-- C5 counterexample: an empty prompt makes getRequestBody raise a typed
API-call error whose message is not of the upstream Dify-API-error form, so
the upstream-status error is not the only exception the operations can
raise. -/
theorem c5_counterexample :
    getRequestBody ⟨[], none⟩ none [] =
      Except.error "No messages provided" ∧
    String.take "No messages provided" 16 ≠ "Dify API error: " := by
  refine ⟨rfl, by decide⟩

theorem getRequestBody_error_cases (stg : DifySettings) (uid : Option String)
    (msgs : List Message) :
    (getRequestBody stg uid msgs = .error "No messages provided" ↔
      msgs.getLast? = none) ∧
    (getRequestBody stg uid msgs =
        .error "The last message must be a user message" ↔
      ∃ m, msgs.getLast? = some m ∧ m.role ≠ "user") ∧
    (getRequestBody stg uid msgs =
        .error "Dify provider does not currently support file attachments" ↔
      ∃ m, msgs.getLast? = some m ∧ m.role = "user" ∧
        hasAttachments m.content = true) ∧
    (∀ err, getRequestBody stg uid msgs = .error err →
      err = "No messages provided" ∨
      err = "The last message must be a user message" ∨
      err = "Dify provider does not currently support file attachments") := by
  cases hl : msgs.getLast? with
  | none =>
    refine ⟨?_, ?_, ?_, ?_⟩ <;> simp [getRequestBody, hl]
  | some m =>
    by_cases hr : m.role = "user"
    · by_cases ha : hasAttachments m.content = true
      · refine ⟨?_, ?_, ?_, ?_⟩ <;> simp [getRequestBody, hl, hr, ha]
      · refine ⟨?_, ?_, ?_, ?_⟩ <;> simp [getRequestBody, hl, hr, ha]
    · refine ⟨?_, ?_, ?_, ?_⟩ <;> simp [getRequestBody, hl, hr]

theorem getRequestBodyV1_error_cases (stg : DifySettings) (uid : Option String)
    (msgs : List Message) :
    (getRequestBodyV1 stg uid msgs = .error "No messages provided" ↔
      msgs.getLast? = none) ∧
    (getRequestBodyV1 stg uid msgs =
        .error "The last message must be a user message" ↔
      ∃ m, msgs.getLast? = some m ∧ m.role ≠ "user") ∧
    (getRequestBodyV1 stg uid msgs =
        .error "Dify provider does not currently support image attachments" ↔
      ∃ m, msgs.getLast? = some m ∧ m.role = "user" ∧
        hasAttachmentsV1 m.content = true) ∧
    (∀ err, getRequestBodyV1 stg uid msgs = .error err →
      err = "No messages provided" ∨
      err = "The last message must be a user message" ∨
      err = "Dify provider does not currently support image attachments") := by
  cases hl : msgs.getLast? with
  | none =>
    refine ⟨?_, ?_, ?_, ?_⟩ <;> simp [getRequestBodyV1, hl]
  | some m =>
    by_cases hr : m.role = "user"
    · by_cases ha : hasAttachmentsV1 m.content = true
      · refine ⟨?_, ?_, ?_, ?_⟩ <;> simp [getRequestBodyV1, hl, hr, ha]
      · refine ⟨?_, ?_, ?_, ?_⟩ <;> simp [getRequestBodyV1, hl, hr, ha]
    · refine ⟨?_, ?_, ?_, ?_⟩ <;> simp [getRequestBodyV1, hl, hr]

/-- C5 (amended): besides the upstream-status error, the operations raise
exactly the request-validation API-call errors of getRequestBody, with a
per-message correspondence, in both model versions: the no-messages error
is thrown iff the message list is empty; the user-role error iff a last
message exists whose role is not user; the attachments error (file
attachments in v2, image attachments in v1) iff the last message is a user
message carrying such an attachment part; and no other error message is
ever thrown by getRequestBody. -/
theorem c5_getRequestBody_error_characterization (settings : DifySettings)
    (uid : Option String) (msgs : List Message) :
    (getRequestBody settings uid msgs = .error "No messages provided" ↔
      msgs.getLast? = none) ∧
    (getRequestBody settings uid msgs =
        .error "The last message must be a user message" ↔
      ∃ m, msgs.getLast? = some m ∧ m.role ≠ "user") ∧
    (getRequestBody settings uid msgs =
        .error "Dify provider does not currently support file attachments" ↔
      ∃ m, msgs.getLast? = some m ∧ m.role = "user" ∧
        hasAttachments m.content = true) ∧
    (∀ err, getRequestBody settings uid msgs = .error err →
      err = "No messages provided" ∨
      err = "The last message must be a user message" ∨
      err = "Dify provider does not currently support file attachments") ∧
    (getRequestBodyV1 settings uid msgs = .error "No messages provided" ↔
      msgs.getLast? = none) ∧
    (getRequestBodyV1 settings uid msgs =
        .error "The last message must be a user message" ↔
      ∃ m, msgs.getLast? = some m ∧ m.role ≠ "user") ∧
    (getRequestBodyV1 settings uid msgs =
        .error "Dify provider does not currently support image attachments" ↔
      ∃ m, msgs.getLast? = some m ∧ m.role = "user" ∧
        hasAttachmentsV1 m.content = true) ∧
    (∀ err, getRequestBodyV1 settings uid msgs = .error err →
      err = "No messages provided" ∨
      err = "The last message must be a user message" ∨
      err = "Dify provider does not currently support image attachments") := by
  obtain ⟨h1, h2, h3, h4⟩ := getRequestBody_error_cases settings uid msgs
  obtain ⟨g1, g2, g3, g4⟩ := getRequestBodyV1_error_cases settings uid msgs
  exact ⟨h1, h2, h3, h4, g1, g2, g3, g4⟩

/-- A last message with a non-user role. -/
def c5RoleMsg : Message := ⟨"assistant", .str "Hi"⟩

/-- A user message carrying a file content part (the v2 attachment case). -/
def c5FileMsg : Message := ⟨"user", .parts [.obj "file" ""]⟩

/-- A user message carrying an image content part (the v1 attachment
case). -/
def c5ImageMsg : Message := ⟨"user", .parts [.obj "image" ""]⟩

/-- C5 witness: all four request-validation errors are reachable — the
characterization applied to the empty prompt, a non-user last message, a
file attachment (v2) and an image attachment (v1). -/
theorem c5_witness :
    getRequestBody ⟨[], none⟩ none [] =
      Except.error "No messages provided" ∧
    getRequestBody ⟨[], none⟩ none [c5RoleMsg] =
      Except.error "The last message must be a user message" ∧
    getRequestBody ⟨[], none⟩ none [c5FileMsg] =
      Except.error "Dify provider does not currently support file attachments" ∧
    getRequestBodyV1 ⟨[], none⟩ none [c5ImageMsg] =
      Except.error "Dify provider does not currently support image attachments" :=
  ⟨(c5_getRequestBody_error_characterization ⟨[], none⟩ none []).1.mpr rfl,
   (c5_getRequestBody_error_characterization ⟨[], none⟩ none
      [c5RoleMsg]).2.1.mpr ⟨c5RoleMsg, rfl, by decide⟩,
   (c5_getRequestBody_error_characterization ⟨[], none⟩ none
      [c5FileMsg]).2.2.1.mpr ⟨c5FileMsg, rfl, rfl, by decide⟩,
   (c5_getRequestBody_error_characterization ⟨[], none⟩ none
      [c5ImageMsg]).2.2.2.2.2.2.1.mpr ⟨c5ImageMsg, rfl, rfl, by decide⟩⟩

/-- C8: the v2 blocking reduction copies the decoded response's
metadata.usage fields one-to-one into the usage triple and sets
finishReason stop unconditionally; every decoded v1 response carries no
usage object (the v1 schema has none) and the v1 reduction yields all-zero
usage with finishReason stop. -/
theorem c8_blocking_usage_copy :
    (∀ r : V2CompletionResponse,
      (doGenerateV2 r).usage =
        ⟨r.metadata_usage.prompt_tokens, r.metadata_usage.completion_tokens,
         r.metadata_usage.total_tokens⟩ ∧
      (doGenerateV2 r).finishReason = "stop") ∧
    (∀ r : V1CompletionResponse,
      (doGenerateV1 r).usage = ⟨0, 0⟩ ∧
      (doGenerateV1 r).finishReason = "stop") :=
  ⟨fun _ => ⟨rfl, rfl⟩, fun _ => ⟨rfl, rfl⟩⟩

/-- A blocking response and a streaming terminal event describing the same
run with the same total of 12 tokens. -/
def c9Response : V2CompletionResponse :=
  ⟨"task1", some "wfr1", some "Hello", ⟨5, 7, 12⟩⟩

def c9Event : DifyStreamEvent :=
  ⟨"workflow_finished", some "wfr1", some "task1", some ⟨some 12, none⟩, none⟩

/-- C9 counterexample: a blocking response with usage 5/7/12 and a
workflow_finished event with data.total_tokens 12 carry the same total, yet
blocking mode reports usage (5, 7, 12) while streaming mode's finish part
reports (0, 12, 12) — the usage triples differ. -/
theorem c9_counterexample :
    (transformEvent "m" accInit (.success c9Event)).1 =
      [.textEnd "m",
       .finish "stop" ⟨0, 12, 12⟩ ⟨some "wfr1", some "task1"⟩] ∧
    (doGenerateV2 c9Response).usage = ⟨5, 7, 12⟩ ∧
    (doGenerateV2 c9Response).usage ≠ streamFinishUsage c9Event := by
  refine ⟨by decide, rfl, by decide⟩

/-- C9 (amended): the two code paths agree on the finish reason (stop,
unconditionally, in both modes) but not on the usage triple: the blocking
usage equals the streaming finish usage exactly when the response's
prompt_tokens are 0 and its completion_tokens and total_tokens both equal
the event's resolved data.total_tokens. -/
theorem c9_modes_agreement (msgId : String) (s : Acc)
    (r : V2CompletionResponse) (e : DifyStreamEvent)
    (h : e.event = "workflow_finished") :
    (doGenerateV2 r).finishReason = "stop" ∧
    (transformEvent msgId s (.success e)).1 =
      [.textEnd msgId,
       .finish "stop" (streamFinishUsage e)
         ⟨(updateIds s e).workflowRunId, (updateIds s e).taskId⟩] ∧
    ((doGenerateV2 r).usage = streamFinishUsage e ↔
      (r.metadata_usage.prompt_tokens = 0 ∧
       r.metadata_usage.completion_tokens = eventTotalTokens e ∧
       r.metadata_usage.total_tokens = eventTotalTokens e)) := by
  refine ⟨rfl, ?_, ?_⟩
  · simp [transformEvent, h, workflowFinishedParts]
  · simp [doGenerateV2, streamFinishUsage, UsageV2.mk.injEq]

/-- C9 witness: the agreement theorem at the concrete pair; there the iff's
right side is false (prompt_tokens 5 is nonzero), so the usages differ. -/
theorem c9_witness :
    (doGenerateV2 c9Response).finishReason = "stop" ∧
    (transformEvent "m" accInit (.success c9Event)).1 =
      [.textEnd "m",
       .finish "stop" (streamFinishUsage c9Event)
         ⟨(updateIds accInit c9Event).workflowRunId,
          (updateIds accInit c9Event).taskId⟩] ∧
    ((doGenerateV2 c9Response).usage = streamFinishUsage c9Event ↔
      (c9Response.metadata_usage.prompt_tokens = 0 ∧
       c9Response.metadata_usage.completion_tokens = eventTotalTokens c9Event ∧
       c9Response.metadata_usage.total_tokens = eventTotalTokens c9Event)) :=
  c9_modes_agreement "m" accInit c9Response c9Event rfl

/-- Settings configured for blocking mode, and a minimal user prompt. -/
def c10Settings : DifySettings := ⟨[], some "blocking"⟩

def c10Msg : Message := ⟨"user", .str "Hi"⟩

/-- C10: for every request body built with post-constructor settings, the
body doStream posts has response_mode streaming (the spread overrides
whatever the settings say), while the body doGenerate posts carries the
settings-level response mode, which the constructor defaulted to streaming
exactly when it was absent or empty. -/
theorem c10_stream_overrides_response_mode (settings : DifySettings)
    (uid : Option String) (msgs : List Message) (b : RequestBody)
    (h : getRequestBody (initSettings settings) uid msgs = .ok b) :
    (doStreamBody b).response_mode = some "streaming" ∧
    b.response_mode = (initSettings settings).responseMode ∧
    (initSettings settings).responseMode =
      (if truthyStr settings.responseMode then settings.responseMode
       else some "streaming") := by
  refine ⟨rfl, ?_, rfl⟩
  unfold getRequestBody at h
  split at h
  next => exact Except.noConfusion h
  next m hl =>
    split_ifs at h with h1 h2
    injection h with h'
    rw [← h']

/-- C10 witness: with responseMode configured to blocking, the generate
body keeps blocking while the stream body posts streaming. -/
theorem c10_witness :
    (doStreamBody
        ⟨[("query", "Hi")], some "blocking",
         "you_should_pass_user-id"⟩).response_mode = some "streaming" ∧
    (⟨[("query", "Hi")], some "blocking",
      "you_should_pass_user-id"⟩ : RequestBody).response_mode =
      (initSettings c10Settings).responseMode ∧
    (initSettings c10Settings).responseMode =
      (if truthyStr c10Settings.responseMode then c10Settings.responseMode
       else some "streaming") :=
  c10_stream_overrides_response_mode c10Settings none [c10Msg]
    ⟨[("query", "Hi")], some "blocking", "you_should_pass_user-id"⟩
    rfl

end DifyProvider
